import Mathlib

/-!
Verification of the NetWeaver telemetry-ingest pipeline: NetFlow v5 and
sFlow v5 decoders, the bounded flow buffer, the batch database writer and
the record-to-row conversion, shallowly embedded from the Go sources
(`pkg/netflow`, `pkg/sflow`, `pkg/database`, the telemetry agent `main`).

Payloads are byte lists (`List Nat`, each byte taken mod 256 at read time,
matching Go's `[]byte`).  Machine-integer arithmetic that could overflow is
written with an explicit `% 2^64`.  Statistics counters are modelled as
deltas produced by one call.
-/

set_option maxRecDepth 100000

namespace NetWeaver

/-- Byte `i` of a payload; out-of-range reads yield 0 (every read in the
embedded code is guarded by the same bounds check the Go source performs,
so the default is never observable there). -/
def byteAt (d : List Nat) (i : Nat) : Nat := d.getD i 0 % 256

/-- `binary.BigEndian.Uint16(d[i:i+2])`. -/
def be16 (d : List Nat) (i : Nat) : Nat := byteAt d i * 256 + byteAt d (i + 1)

/-- `binary.BigEndian.Uint32(d[i:i+4])`. -/
def be32 (d : List Nat) (i : Nat) : Nat :=
  byteAt d i * 16777216 + byteAt d (i + 1) * 65536 + byteAt d (i + 2) * 256 + byteAt d (i + 3)

/-- Go slice `d[off : off+n]`. -/
def slice (d : List Nat) (off n : Nat) : List Nat := (d.drop off).take n

theorem byteAt_lt (d : List Nat) (i : Nat) : byteAt d i < 256 :=
  Nat.mod_lt _ (by norm_num)

theorem be16_lt (d : List Nat) (i : Nat) : be16 d i < 65536 := by
  have h1 := byteAt_lt d i
  have h2 := byteAt_lt d (i + 1)
  unfold be16
  omega

theorem be32_lt (d : List Nat) (i : Nat) : be32 d i < 4294967296 := by
  have h1 := byteAt_lt d i
  have h2 := byteAt_lt d (i + 1)
  have h3 := byteAt_lt d (i + 2)
  have h4 := byteAt_lt d (i + 3)
  unfold be32
  omega

namespace Netflow

/-- `netflow.FlowRecord` (pkg/netflow).  `net.IP` values are byte lists;
`Timestamp` (`time.Unix(unixSecs, unixNsecs)`) is nanoseconds since epoch. -/
structure FlowRecord where
  timestamp : Nat
  exporterIP : List Nat
  sourceIP : List Nat
  destinationIP : List Nat
  sourcePort : Nat
  destPort : Nat
  protocol : Nat
  bytes : Nat
  packets : Nat
  tcpFlags : Nat
  tos : Nat
  inputInterface : Nat
  outputInterface : Nat
  nextHopIP : List Nat
  sourceAS : Nat
  destAS : Nat
  flowDuration : Nat
  samplingRate : Nat
deriving DecidableEq, Repr

/-- Default record used only as the `List.getD` fallback in statements. -/
def dfltRecord : FlowRecord :=
  ⟨0, [], [], [], 0, 0, 0, 0, 0, 0, 0, 0, 0, [], 0, 0, 0, 0⟩

/-- The distinct `fmt.Errorf` sites of `netflow.Parser.Parse` / `parseV5` /
`parseV9` / `parseIPFIX`, one constructor per error message. -/
inductive ParseErr where
  | shortPacket (n : Nat)
  | v5ShortHeader (n : Nat)
  | sizeMismatch (got expected : Nat)
  | v9NotImplemented
  | ipfixNotImplemented
  | unsupportedVersion (v : Nat)
deriving DecidableEq, Repr

/-- Result of one `Parse` call: the returned records, the returned error,
and the deltas this call applies to the parser's three counters. -/
structure ParseResult where
  flows : List FlowRecord
  err : Option ParseErr
  packetsParsedDelta : Nat
  recordsParsedDelta : Nat
  parseErrorsDelta : Nat
deriving DecidableEq, Repr

/-- One 48-byte NetFlow v5 record (`recordData` in `parseV5`), decoded at
its in-slice offsets.  `bytes`/`packets` follow
`uint64(dOctets) * uint64(samplingRate)` (uint64 arithmetic, hence the
explicit `% 2^64`). -/
def mkV5FlowRecord (recordData : List Nat) (ts : Nat) (exporterIP : List Nat)
    (samplingRate : Nat) : FlowRecord :=
  let first := be32 recordData 24
  let last := be32 recordData 28
  { timestamp := ts
    exporterIP := exporterIP
    sourceIP := slice recordData 0 4
    destinationIP := slice recordData 4 4
    sourcePort := be16 recordData 32
    destPort := be16 recordData 34
    protocol := byteAt recordData 38
    bytes := be32 recordData 20 * samplingRate % 18446744073709551616
    packets := be32 recordData 16 * samplingRate % 18446744073709551616
    tcpFlags := byteAt recordData 37
    tos := byteAt recordData 39
    inputInterface := be16 recordData 12
    outputInterface := be16 recordData 14
    nextHopIP := slice recordData 8 4
    sourceAS := be16 recordData 40
    destAS := be16 recordData 42
    flowDuration := if first ≤ last then last - first else 0
    samplingRate := samplingRate }

/-- The record loop of `parseV5`: `n` remaining iterations starting at byte
offset `off`; the `offset+recordSize > len(data)` guard breaks the loop. -/
def parseV5Records (d : List Nat) (ts : Nat) (exporterIP : List Nat)
    (rate : Nat) : Nat → Nat → List FlowRecord
  | 0, _ => []
  | n + 1, off =>
    if off + 48 > d.length then []
    else
      mkV5FlowRecord (slice d off 48) ts exporterIP rate ::
        parseV5Records d ts exporterIP rate n (off + 48)

/-- `netflow.Parser.parseV5`.  `& 0x3FFF` on the 16-bit sampling-interval
field is written `% 16384`. -/
def parseV5 (d : List Nat) (exporterIP : List Nat) : ParseResult :=
  if d.length < 24 then ⟨[], some (.v5ShortHeader d.length), 0, 0, 1⟩
  else
    let count := be16 d 2
    let expectedSize := 24 + count * 48
    if d.length < expectedSize then ⟨[], some (.sizeMismatch d.length expectedSize), 0, 0, 1⟩
    else
      let samplingRate0 := be16 d 22 % 16384
      let samplingRate := if samplingRate0 = 0 then 1 else samplingRate0
      let ts := be32 d 8 * 1000000000 + be32 d 12
      let flows := parseV5Records d ts exporterIP samplingRate count 24
      ⟨flows, none, 1, flows.length, 0⟩

/-- `netflow.Parser.Parse`: version dispatch.  Versions 9 and 10 reach the
`parseV9` / `parseIPFIX` stubs, which return their own "not fully
implemented" errors and bump `ParseErrors`. -/
def Parse (d : List Nat) (exporterIP : List Nat) : ParseResult :=
  if d.length < 2 then ⟨[], some (.shortPacket d.length), 0, 0, 1⟩
  else
    let version := be16 d 0
    if version = 5 then parseV5 d exporterIP
    else if version = 9 then ⟨[], some .v9NotImplemented, 0, 0, 1⟩
    else if version = 10 then ⟨[], some .ipfixNotImplemented, 0, 0, 1⟩
    else ⟨[], some (.unsupportedVersion version), 0, 0, 1⟩

end Netflow

namespace Sflow

/-- `sflow.FlowRecord` (pkg/sflow).  `Timestamp` is the `time.Now()` value
taken at parse time, passed in as a parameter of the embedding. -/
structure FlowRecord where
  timestamp : Nat
  agentIP : List Nat
  sourceIP : List Nat
  destinationIP : List Nat
  sourcePort : Nat
  destPort : Nat
  protocol : Nat
  bytes : Nat
  packets : Nat
  inputInterface : Nat
  outputInterface : Nat
  samplingRate : Nat
  packetSize : Nat
  etherType : Nat
  vlanID : Nat
deriving DecidableEq, Repr

/-- Default record used only as the `List.getD` fallback in statements. -/
def dfltRecord : FlowRecord := ⟨0, [], [], [], 0, 0, 0, 0, 0, 0, 0, 0, 0, 0, 0⟩

/-- The error sites of `sflow.Parser.Parse` that abort the whole call. -/
inductive ParseErr where
  | shortPacket (n : Nat)
  | unsupportedVersion (v : Nat)
  | shortV4Agent
  | shortV6Agent
  | invalidAddressType (t : Nat)
deriving DecidableEq, Repr

/-- Result of one sFlow `Parse` call (records, error, counter deltas). -/
structure ParseResult where
  flows : List FlowRecord
  err : Option ParseErr
  packetsParsedDelta : Nat
  recordsParsedDelta : Nat
  parseErrorsDelta : Nat
deriving DecidableEq, Repr

/-- `sflow.Parser.parseRawPacketHeader` on one raw-packet-header record
body.  Returns `none` exactly where the Go function returns `nil`.
`& 0x0F` is `% 16` and `& 0x0FFF` is `% 4096`. -/
def parseRawPacketHeader (data : List Nat) (agentIP : List Nat) (ts : Nat)
    (inputIface outputIface samplingRate : Nat) : Option FlowRecord :=
  if data.length < 16 then none
  else
    let frameLength := be32 data 4
    let headerLength := be32 data 12
    if 16 + headerLength > data.length then none
    else
      let headerData := slice data 16 headerLength
      if headerData.length < 14 then none
      else
        let etherType0 := be16 headerData 12
        -- VLAN tag handling: on 0x8100 read the VLAN id, advance 4 bytes
        let step :=
          if etherType0 = 33024 then
            if headerData.length < 14 + 4 then none
            else some (be16 headerData 16, 18, be16 headerData 14 % 4096)
          else some (etherType0, 14, 0)
        match step with
        | none => none
        | some (etherType, ipOffset, vlanID) =>
          if etherType = 2048 then
            if headerData.length < ipOffset + 20 then none
            else
              let ipHeader := headerData.drop ipOffset
              let versionIHL := byteAt ipHeader 0
              let ihl := versionIHL % 16 * 4
              if ipHeader.length < ihl then none
              else
                let protocol := byteAt ipHeader 9
                let srcIP := slice ipHeader 12 4
                let dstIP := slice ipHeader 16 4
                let srcPort := if ihl + 4 ≤ ipHeader.length then be16 (ipHeader.drop ihl) 0 else 0
                let dstPort := if ihl + 4 ≤ ipHeader.length then be16 (ipHeader.drop ihl) 2 else 0
                some
                  { timestamp := ts
                    agentIP := agentIP
                    sourceIP := srcIP
                    destinationIP := dstIP
                    sourcePort := srcPort
                    destPort := dstPort
                    protocol := protocol
                    bytes := frameLength * samplingRate % 18446744073709551616
                    packets := samplingRate
                    inputInterface := inputIface
                    outputInterface := outputIface
                    samplingRate := samplingRate
                    packetSize := frameLength
                    etherType := etherType
                    vlanID := vlanID }
          else none

/-- The record loop of `sflow.Parser.parseFlowSample`: `n` remaining
records, `off` the current offset into the sample body.  Record formats
other than enterprise 0 / format 1 (raw packet header) are skipped;
`>> 12` is `/ 4096`, `& 0xFFFFF` is `% 1048576`, `& 0xFFF` is `% 4096`. -/
def parseSampleRecords (data : List Nat) (agentIP : List Nat) (ts : Nat)
    (inputIface outputIface samplingRate : Nat) : Nat → Nat → List FlowRecord
  | 0, _ => []
  | n + 1, off =>
    if off + 8 > data.length then []
    else
      let recordFormat := be32 data off
      let recordLength := be32 data (off + 4)
      if off + 8 + recordLength > data.length then []
      else
        let recordData := slice data (off + 8) recordLength
        let enterprise := recordFormat / 4096 % 1048576
        let format := recordFormat % 4096
        let rest :=
          parseSampleRecords data agentIP ts inputIface outputIface samplingRate n
            (off + 8 + recordLength)
        if enterprise = 0 ∧ format = 1 then
          match parseRawPacketHeader recordData agentIP ts inputIface outputIface samplingRate with
          | some f => f :: rest
          | none => rest
        else rest

/-- `sflow.Parser.parseFlowSample`.  `none` models the single error return
("flow sample too short"); the wire sampling rate is used as-is. -/
def parseFlowSample (data : List Nat) (agentIP : List Nat) (ts : Nat) :
    Option (List FlowRecord) :=
  if data.length < 32 then none
  else
    let samplingRate := be32 data 8
    let inputIface := be32 data 20
    let outputIface := be32 data 24
    let numRecords := be32 data 28
    some (parseSampleRecords data agentIP ts inputIface outputIface samplingRate numRecords 32)

/-- The sample loop of `sflow.Parser.Parse`: `n` remaining samples, `off`
the current datagram offset.  Returns the collected flows and the
`ParseErrors` delta.  A sample whose declared length overruns the datagram
bumps `ParseErrors` and breaks; an error from `parseFlowSample` is
discarded without counting (`if err == nil` in the source). -/
def parseSamples (d : List Nat) (agentIP : List Nat) (ts : Nat) :
    Nat → Nat → List FlowRecord × Nat
  | 0, _ => ([], 0)
  | n + 1, off =>
    if off + 8 > d.length then ([], 0)
    else
      let sampleFormat := be32 d off
      let sampleLength := be32 d (off + 4)
      let enterprise := sampleFormat / 4096 % 1048576
      let format := sampleFormat % 4096
      if off + 8 + sampleLength > d.length then ([], 1)
      else
        let sampleData := slice d (off + 8) sampleLength
        let rest := parseSamples d agentIP ts n (off + 8 + sampleLength)
        if enterprise = 0 ∧ (format = 1 ∨ format = 3) then
          match parseFlowSample sampleData agentIP ts with
          | some fl => (fl ++ rest.1, rest.2)
          | none => rest
        else rest

/-- `sflow.Parser.Parse`.  `ts` stands for the `time.Now()` call. -/
def Parse (d : List Nat) (ts : Nat) : ParseResult :=
  if d.length < 28 then ⟨[], some (.shortPacket d.length), 0, 0, 1⟩
  else
    let version := be32 d 0
    if version ≠ 5 then ⟨[], some (.unsupportedVersion version), 0, 0, 1⟩
    else
      let addressType := be32 d 4
      if addressType = 1 then
        if d.length < 12 then ⟨[], some .shortV4Agent, 0, 0, 1⟩
        else
          let agentIP := slice d 8 4
          let numSamples := be32 d 24
          let res := parseSamples d agentIP ts numSamples 28
          ⟨res.1, none, 1, res.1.length, res.2⟩
      else if addressType = 2 then
        if d.length < 24 then ⟨[], some .shortV6Agent, 0, 0, 1⟩
        else
          let agentIP := slice d 8 16
          let numSamples := be32 d 36
          let res := parseSamples d agentIP ts numSamples 40
          ⟨res.1, none, 1, res.1.length, res.2⟩
      else ⟨[], some (.invalidAddressType addressType), 0, 0, 1⟩

end Sflow

/-- Go's `int32(x)` on an unsigned value: keep the low 32 bits and
reinterpret them in two's complement. -/
def int32ofUint (n : Nat) : Int :=
  if n % 4294967296 < 2147483648 then ((n % 4294967296 : Nat) : Int)
  else ((n % 4294967296 : Nat) : Int) - 4294967296

/-- Go's `int64(x)` on an unsigned value: keep the low 64 bits and
reinterpret them in two's complement. -/
def int64ofUint (n : Nat) : Int :=
  if n % 18446744073709551616 < 9223372036854775808 then ((n % 18446744073709551616 : Nat) : Int)
  else ((n % 18446744073709551616 : Nat) : Int) - 18446744073709551616

/-- `database.FlowRecordDB` (pkg/database).  The `inet`-text columns keep
the IP byte lists (the `net.IP.String()` rendering is injective on them and
not modelled); the integer columns are Go `int32`/`int64` values. -/
structure FlowRecordDB where
  time : Nat
  exporterIP : List Nat
  sourceIP : List Nat
  destinationIP : List Nat
  sourcePort : Int
  destPort : Int
  protocol : Int
  bytes : Int
  packets : Int
  tcpFlags : Int
  tos : Int
  inputInterface : Int
  outputInterface : Int
  nextHopIP : List Nat
  sourceAS : Int
  destAS : Int
  flowDuration : Int
  samplingRate : Int
deriving DecidableEq, Repr

/-- The `database.FlowRecordDB` literal built in `netflowCollector` for
each decoded NetFlow record (widths: ports/protocol/flags/tos are already
below 2^31, so `int32(·)` and `int32ofUint` agree on them). -/
def netflowToDB (f : Netflow.FlowRecord) : FlowRecordDB :=
  { time := f.timestamp
    exporterIP := f.exporterIP
    sourceIP := f.sourceIP
    destinationIP := f.destinationIP
    sourcePort := int32ofUint f.sourcePort
    destPort := int32ofUint f.destPort
    protocol := int32ofUint f.protocol
    bytes := int64ofUint f.bytes
    packets := int64ofUint f.packets
    tcpFlags := int32ofUint f.tcpFlags
    tos := int32ofUint f.tos
    inputInterface := int32ofUint f.inputInterface
    outputInterface := int32ofUint f.outputInterface
    nextHopIP := f.nextHopIP
    sourceAS := int32ofUint f.sourceAS
    destAS := int32ofUint f.destAS
    flowDuration := int32ofUint f.flowDuration
    samplingRate := int32ofUint f.samplingRate }

/-- The `database.FlowRecordDB` literal built in `sflowCollector`; the
fields absent from the literal get Go zero values. -/
def sflowToDB (f : Sflow.FlowRecord) : FlowRecordDB :=
  { time := f.timestamp
    exporterIP := f.agentIP
    sourceIP := f.sourceIP
    destinationIP := f.destinationIP
    sourcePort := int32ofUint f.sourcePort
    destPort := int32ofUint f.destPort
    protocol := int32ofUint f.protocol
    bytes := int64ofUint f.bytes
    packets := int64ofUint f.packets
    tcpFlags := 0
    tos := 0
    inputInterface := int32ofUint f.inputInterface
    outputInterface := int32ofUint f.outputInterface
    nextHopIP := []
    sourceAS := 0
    destAS := 0
    flowDuration := 0
    samplingRate := int32ofUint f.samplingRate }

/-- The five atomic counters of `TelemetryAgent` (main.go).  The agent has
no other pipeline counters; in particular it has no dropped-record
counter. -/
structure AgentStats where
  packetsReceived : Nat
  flowsProcessed : Nat
  dbInsertsSuccess : Nat
  dbInsertsFailed : Nat
  parseErrors : Nat
deriving DecidableEq, Repr

inductive EnqueueOutcome where
  | enqueued
  | dropped
deriving DecidableEq, Repr

/-- The per-record enqueue step of `netflowCollector` / `sflowCollector`
(the `select` over `a.flowBuffer <- dbRecord` and `default`; the
`ctx.Done` shutdown arm is out of scope).  The buffered channel of
capacity `cap` is a list; the non-blocking send succeeds iff the channel
has room.  On the `default` arm the record is dropped and only a warning
is logged: no statistic changes. -/
def enqueueFlow (cap : Nat) (buffer : List FlowRecordDB) (stats : AgentStats)
    (r : FlowRecordDB) : List FlowRecordDB × AgentStats × EnqueueOutcome :=
  if buffer.length < cap then
    (buffer ++ [r], { stats with flowsProcessed := stats.flowsProcessed + 1 }, .enqueued)
  else (buffer, stats, .dropped)

/-- The `flush` closure of `databaseWriter` (main.go).  `insertOk` is the
outcome of the single external `InsertFlowRecords` call; the returned
`Nat` counts how many insert calls the flush performed.  The buffer
(`a.flowBuffer`) is not referenced by the closure and is passed through
unchanged to state that no record is requeued. -/
def flushBatch (batch : List FlowRecordDB) (buffer : List FlowRecordDB)
    (stats : AgentStats) (insertOk : Bool) :
    List FlowRecordDB × List FlowRecordDB × AgentStats × Nat :=
  if batch.length = 0 then (batch, buffer, stats, 0)
  else if insertOk then
    ([], buffer, { stats with dbInsertsSuccess := stats.dbInsertsSuccess + 1 }, 1)
  else ([], buffer, { stats with dbInsertsFailed := stats.dbInsertsFailed + 1 }, 1)

/-- `database.Client.InsertFlowRecords` on an empty slice returns
immediately with no error and performs no copy; modelled as the number of
`CopyFrom` calls the function performs for a given batch. -/
def insertFlowRecordsCopyCalls (records : List FlowRecordDB) : Nat :=
  if records.length = 0 then 0 else 1

/-! Concrete datagrams used by the scenario claims. -/

/-- Spec scenario 1: NetFlow v5 header (version 5, count 1, uptime 100,
zero timing/sequence/engine/sampling) followed by one 48-byte record
(192.168.1.10 → 10.0.0.50, 100 packets, 150000 bytes, ports 443 → 54321,
protocol 6). -/
def c1payload : List Nat :=
  [0, 5, 0, 1, 0, 0, 0, 100, 0, 0, 0, 0, 0, 0, 0, 0, 0, 0, 0, 0, 0, 0, 0, 0,
   192, 168, 1, 10, 10, 0, 0, 50, 0, 0, 0, 0, 0, 0, 0, 0, 0, 0, 0, 100, 0, 2, 73, 240,
   0, 0, 0, 0, 0, 0, 0, 0, 1, 187, 212, 49, 0, 0, 6, 0, 0, 0, 0, 0, 0, 0, 0, 0]

/-- The FlowRecord scenario 1 must produce. -/
def c1rec : Netflow.FlowRecord :=
  ⟨0, [127, 0, 0, 1], [192, 168, 1, 10], [10, 0, 0, 50], 443, 54321, 6, 150000, 100,
   0, 0, 0, 0, [0, 0, 0, 0], 0, 0, 0, 1⟩

/-- Spec scenario 4, innermost part: a raw-packet-header record body
(header protocol 1, frame length 1000, stripped 0, header length 38)
wrapping Ethernet + IPv4 + TCP-port bytes for 1.2.3.4:80 → 5.6.7.8:12345,
protocol 6. -/
def rawHdrBody : List Nat :=
  [0, 0, 0, 1, 0, 0, 3, 232, 0, 0, 0, 0, 0, 0, 0, 38,
   0, 0, 0, 0, 0, 0, 0, 0, 0, 0, 0, 0, 8, 0,
   69, 0, 0, 0, 0, 0, 0, 0, 0, 6, 0, 0, 1, 2, 3, 4, 5, 6, 7, 8,
   0, 80, 48, 57]

/-- Spec scenario 4, sample layer: one flow sample (format 1, length 94)
with sampling rate 512, interfaces 0, one record wrapping `rawHdrBody`. -/
def c8sample : List Nat :=
  [0, 0, 0, 1, 0, 0, 0, 94,
   0, 0, 0, 0, 0, 0, 0, 0, 0, 0, 2, 0, 0, 0, 0, 0,
   0, 0, 0, 0, 0, 0, 0, 0, 0, 0, 0, 0, 0, 0, 0, 1,
   0, 0, 0, 1, 0, 0, 0, 54] ++ rawHdrBody

/-- Spec scenario 4: sFlow v5 datagram, IPv4 agent 10.0.0.1, one sample. -/
def c8payload : List Nat :=
  [0, 0, 0, 5, 0, 0, 0, 1, 10, 0, 0, 1,
   0, 0, 0, 0, 0, 0, 0, 0, 0, 0, 0, 0, 0, 0, 0, 1] ++ c8sample

/-- The FlowRecord scenario 4 must produce. -/
def c8rec : Sflow.FlowRecord :=
  ⟨0, [10, 0, 0, 1], [1, 2, 3, 4], [5, 6, 7, 8], 80, 12345, 6, 512000, 512,
   0, 0, 512, 1000, 2048, 0⟩

/-- Like scenario 4 but the flow sample carries wire sampling rate 0. -/
def rate0payload : List Nat :=
  [0, 0, 0, 5, 0, 0, 0, 1, 10, 0, 0, 1,
   0, 0, 0, 0, 0, 0, 0, 0, 0, 0, 0, 0, 0, 0, 0, 1,
   0, 0, 0, 1, 0, 0, 0, 94,
   0, 0, 0, 0, 0, 0, 0, 0, 0, 0, 0, 0, 0, 0, 0, 0,
   0, 0, 0, 0, 0, 0, 0, 0, 0, 0, 0, 0, 0, 0, 0, 1,
   0, 0, 0, 1, 0, 0, 0, 54] ++ rawHdrBody

/-- An sFlow datagram with two samples: the first is a flow sample whose
4-byte body is consistent with its declared length but fails the
`len(data) < 32` bounds check inside `parseFlowSample`; the second is the
valid sample of scenario 4. -/
def mixedPayload : List Nat :=
  [0, 0, 0, 5, 0, 0, 0, 1, 10, 0, 0, 1,
   0, 0, 0, 0, 0, 0, 0, 0, 0, 0, 0, 0, 0, 0, 0, 2,
   0, 0, 0, 1, 0, 0, 0, 4, 0, 0, 0, 0] ++ c8sample

/-- An sFlow datagram with one sample whose declared length (99) overruns
the datagram. -/
def overrunPayload : List Nat :=
  [0, 0, 0, 5, 0, 0, 0, 1, 10, 0, 0, 1,
   0, 0, 0, 0, 0, 0, 0, 0, 0, 0, 0, 0, 0, 0, 0, 1,
   0, 0, 0, 1, 0, 0, 0, 99]

/-- A NetFlow v5 payload declaring count = 30 but carrying only
24 + 29 × 48 = 1416 bytes. -/
def c7payload : List Nat := [0, 5, 0, 30] ++ List.replicate 1412 0

/-- Zeroed agent statistics, for concrete instantiations. -/
def stats0 : AgentStats := ⟨0, 0, 0, 0, 0⟩

/-- A concrete database row, for concrete instantiations. -/
def dbRecDemo : FlowRecordDB := netflowToDB c1rec

/-! Shared lemmas about the NetFlow v5 record loop. -/

/-- Every record emitted by the v5 record loop carries the sampling rate
the loop was given. -/
theorem parseV5Records_rate (d : List Nat) (ts : Nat) (e : List Nat) (rate : Nat) :
    ∀ n off r, r ∈ Netflow.parseV5Records d ts e rate n off → r.samplingRate = rate := by
  intro n
  induction n with
  | zero => intro off r hr; simp [Netflow.parseV5Records] at hr
  | succ n ih =>
    intro off r hr
    rw [Netflow.parseV5Records] at hr
    by_cases hg : off + 48 > d.length
    · simp [hg] at hr
    · rw [if_neg hg] at hr
      rcases List.mem_cons.mp hr with h | h
      · subst h; rfl
      · exact ih (off + 48) r h

/-- When the size check passed, the v5 record loop emits exactly `n`
records and record `i` is decoded from the 48-byte slice at
`off + 48 * i`. -/
theorem parseV5Records_spec (d : List Nat) (ts : Nat) (e : List Nat) (rate : Nat) :
    ∀ n off, off + 48 * n ≤ d.length →
      (Netflow.parseV5Records d ts e rate n off).length = n ∧
      ∀ i, i < n →
        (Netflow.parseV5Records d ts e rate n off).getD i Netflow.dfltRecord =
          Netflow.mkV5FlowRecord (slice d (off + 48 * i) 48) ts e rate := by
  intro n
  induction n with
  | zero =>
    intro off _
    exact ⟨rfl, fun i hi => absurd hi (Nat.not_lt_zero i)⟩
  | succ n ih =>
    intro off h
    have hg : ¬ off + 48 > d.length := by omega
    rw [Netflow.parseV5Records, if_neg hg]
    obtain ⟨hlen, hget⟩ := ih (off + 48) (by omega)
    refine ⟨by simp [hlen], ?_⟩
    intro i hi
    cases i with
    | zero => simp
    | succ j =>
      have hj : j < n := by omega
      have heq := hget j hj
      have harith : off + 48 + 48 * j = off + 48 * (j + 1) := by ring
      simpa [harith] using heq

/-! Claim theorems. -/

/-- C1: decoding the concrete NetFlow v5 datagram of spec scenario 1 with
`Parse` returns exactly one FlowRecord with source 192.168.1.10,
destination 10.0.0.50, ports 443 → 54321, protocol 6, 100 packets and
150000 bytes, and no error. -/
theorem c1_netflow_scenario1 :
    Netflow.Parse c1payload [127, 0, 0, 1] = ⟨[c1rec], none, 1, 1, 0⟩ := by decide

/-- C8: decoding the concrete sFlow v5 datagram of spec scenario 4 with
`Parse` returns exactly one FlowRecord with source 1.2.3.4, destination
5.6.7.8, ports 80 → 12345, protocol 6, 512 packets and 512000 bytes, and
no error. -/
theorem c8_sflow_scenario4 :
    Sflow.Parse c8payload 0 = ⟨[c8rec], none, 1, 1, 0⟩ := by decide

/-- C2 counterexample: an sFlow datagram whose flow sample carries wire
sampling rate 0 yields a FlowRecord with `SamplingRate = 0` (and no
error), so not every record leaving a decoder has sampling rate ≥ 1. -/
theorem c2_counterexample :
    (Sflow.Parse rate0payload 0).flows.map Sflow.FlowRecord.samplingRate = [0] ∧
    (Sflow.Parse rate0payload 0).err = none := by decide

/-- C2 (amended): every FlowRecord produced by the NetFlow v5 decoder has
`SamplingRate ≥ 1` (a zero sampling interval is promoted to 1 before
scaling); the sFlow decoder instead copies the wire sampling rate into the
record unchanged — zero included — and scales with that unpromoted value:
the record's packet count is the rate itself and its byte count is the
wire `frame_length` (the u32 at offset 4 of the record body) times the
rate (exactly, whenever the rate fits in 32 bits as every wire rate
does). -/
theorem c2_amended_sampling :
    (∀ d exporterIP r, r ∈ (Netflow.Parse d exporterIP).flows → 1 ≤ r.samplingRate) ∧
    (∀ data agentIP ts ifin ifout rate f,
      Sflow.parseRawPacketHeader data agentIP ts ifin ifout rate = some f →
        f.samplingRate = rate ∧ f.packets = rate ∧
        f.bytes = be32 data 4 * rate % 18446744073709551616 ∧
        (rate < 4294967296 → f.bytes = be32 data 4 * rate)) := by
  constructor
  · intro d e r hr
    simp only [Netflow.Parse] at hr
    split at hr
    · simp at hr
    · split at hr
      · simp only [Netflow.parseV5] at hr
        split at hr
        · simp at hr
        · split at hr
          · simp at hr
          · have := parseV5Records_rate d (be32 d 8 * 1000000000 + be32 d 12) e
              (if be16 d 22 % 16384 = 0 then 1 else be16 d 22 % 16384) (be16 d 2) 24 r hr
            rw [this]
            split
            · exact le_refl 1
            · omega
      · repeat' split at hr
        all_goals simp at hr
  · intro data agentIP ts ifin ifout rate f h
    simp only [Sflow.parseRawPacketHeader] at h
    repeat' split at h
    all_goals first
      | (obtain rfl := Option.some.inj h
         refine ⟨rfl, rfl, rfl, fun hr => ?_⟩
         exact Nat.mod_eq_of_lt (by
           have hb := be32_lt data 4
           calc be32 data 4 * rate ≤ 4294967295 * 4294967295 :=
               Nat.mul_le_mul (by omega) (by omega)
             _ < 18446744073709551616 := by norm_num))
      | simp at h

/-- C3 counterexample: in `mixedPayload` the first sample's 4-byte body is
within the datagram bounds but fails `parseFlowSample`'s own bounds check;
the decoder skips it, still decodes the second sample and returns no
error, yet the decode-error counter is NOT incremented — contradicting the
claim that every malformed sample is counted in `decode_errors`. -/
theorem c3_counterexample :
    (Sflow.Parse mixedPayload 0).parseErrorsDelta = 0 ∧
    (Sflow.Parse mixedPayload 0).flows = [c8rec] ∧
    (Sflow.Parse mixedPayload 0).err = none ∧
    Sflow.parseFlowSample (slice mixedPayload 36 4) [10, 0, 0, 1] 0 = none := by decide

/-- C3 (amended): with a well-formed datagram header, sFlow `Parse` never
fails.  A sample whose body is in bounds but malformed (its
`parseFlowSample` returns an error) produces no record and the walk
continues with the remaining samples, but it is NOT counted in the
decode-error counter; only a sample whose declared length overruns the
datagram is counted, and that sample stops the walk. -/
theorem c3_amended_sample_handling :
    (∀ d ts, ¬ d.length < 28 → be32 d 0 = 5 → (be32 d 4 = 1 ∨ be32 d 4 = 2) →
      (Sflow.Parse d ts).err = none) ∧
    (∀ d agentIP ts n off, off + 8 ≤ d.length → off + 8 + be32 d (off + 4) ≤ d.length →
      Sflow.parseFlowSample (slice d (off + 8) (be32 d (off + 4))) agentIP ts = none →
      Sflow.parseSamples d agentIP ts (n + 1) off =
        Sflow.parseSamples d agentIP ts n (off + 8 + be32 d (off + 4))) ∧
    (∀ d agentIP ts n off, off + 8 ≤ d.length → d.length < off + 8 + be32 d (off + 4) →
      Sflow.parseSamples d agentIP ts (n + 1) off = ([], 1)) := by
  refine ⟨?_, ?_, ?_⟩
  · intro d ts h28 hv ha
    have h12 : ¬ d.length < 12 := by omega
    have h24 : ¬ d.length < 24 := by omega
    rcases ha with h | h <;> simp [Sflow.Parse, h28, hv, h, h12, h24]
  · intro d agentIP ts n off h8 hsl hnone
    simp only [Sflow.parseSamples]
    rw [if_neg (by omega : ¬ off + 8 > d.length)]
    rw [if_neg (by omega : ¬ off + 8 + be32 d (off + 4) > d.length)]
    rw [hnone]
    split <;> rfl
  · intro d agentIP ts n off h8 hover
    simp only [Sflow.parseSamples]
    rw [if_neg (by omega : ¬ off + 8 > d.length)]
    rw [if_pos (by omega : off + 8 + be32 d (off + 4) > d.length)]

/-- Witness for C3 (amended): concrete instances of the three parts. -/
theorem c3_amended_witness :
    (Sflow.Parse mixedPayload 0).err = none ∧
    Sflow.parseSamples mixedPayload [10, 0, 0, 1] 0 2 28 =
      Sflow.parseSamples mixedPayload [10, 0, 0, 1] 0 1 40 ∧
    Sflow.parseSamples overrunPayload [10, 0, 0, 1] 0 1 28 = ([], 1) :=
  ⟨c3_amended_sample_handling.1 mixedPayload 0 (by decide) (by decide) (Or.inl (by decide)),
   c3_amended_sample_handling.2.1 mixedPayload [10, 0, 0, 1] 0 1 28 (by decide) (by decide)
     (by decide),
   c3_amended_sample_handling.2.2 overrunPayload [10, 0, 0, 1] 0 0 28 (by decide) (by decide)⟩

/-- Witness for C2 (amended): the scenario-1 NetFlow record has sampling
rate ≥ 1, and the scenario-4 raw-header body parsed at rate 512 carries
rate and packet count 512 and byte count frame_length × 512 = 512000. -/
theorem c2_amended_witness :
    (c1rec ∈ (Netflow.Parse c1payload [127, 0, 0, 1]).flows ∧ 1 ≤ c1rec.samplingRate) ∧
    (Sflow.parseRawPacketHeader rawHdrBody [10, 0, 0, 1] 0 0 0 512 = some c8rec ∧
      c8rec.samplingRate = 512 ∧ c8rec.packets = 512 ∧
      c8rec.bytes = be32 rawHdrBody 4 * 512) :=
  ⟨⟨by decide, c2_amended_sampling.1 c1payload [127, 0, 0, 1] c1rec (by decide)⟩,
   ⟨by decide,
    (c2_amended_sampling.2 rawHdrBody [10, 0, 0, 1] 0 0 0 512 c8rec (by decide)).1,
    (c2_amended_sampling.2 rawHdrBody [10, 0, 0, 1] 0 0 0 512 c8rec (by decide)).2.1,
    (c2_amended_sampling.2 rawHdrBody [10, 0, 0, 1] 0 0 0 512 c8rec (by decide)).2.2.2
      (by decide)⟩⟩

/-- C4 counterexample: with the buffer at capacity the enqueue step drops
the record but leaves the buffer and EVERY agent counter unchanged —
`TelemetryAgent` has no `records_dropped_overflow` counter, so nothing is
incremented by 1 on overflow (the drop is only logged). -/
theorem c4_counterexample :
    enqueueFlow 1 [dbRecDemo] stats0 dbRecDemo =
      ([dbRecDemo], stats0, EnqueueOutcome.dropped) := by decide

/-- C4 (amended): the enqueue step never blocks; at capacity the record is
dropped and no pipeline state changes at all (no drop counter exists),
while below capacity the record is appended and only `flowsProcessed` is
incremented. -/
theorem c4_amended_enqueue (cap : Nat) (buffer : List FlowRecordDB) (stats : AgentStats)
    (r : FlowRecordDB) :
    (cap ≤ buffer.length → enqueueFlow cap buffer stats r = (buffer, stats, .dropped)) ∧
    (buffer.length < cap →
      enqueueFlow cap buffer stats r =
        (buffer ++ [r], { stats with flowsProcessed := stats.flowsProcessed + 1 },
          .enqueued)) := by
  constructor
  · intro h
    rw [enqueueFlow, if_neg (by omega)]
  · intro h
    rw [enqueueFlow, if_pos h]

/-- Witness for C4 (amended): both arms at concrete inputs. -/
theorem c4_amended_witness :
    enqueueFlow 1 [dbRecDemo] stats0 dbRecDemo =
      ([dbRecDemo], stats0, EnqueueOutcome.dropped) ∧
    enqueueFlow 1 [] stats0 dbRecDemo =
      ([dbRecDemo], ⟨0, 1, 0, 0, 0⟩, EnqueueOutcome.enqueued) :=
  ⟨(c4_amended_enqueue 1 [dbRecDemo] stats0 dbRecDemo).1 (by decide),
   (c4_amended_enqueue 1 [] stats0 dbRecDemo).2 (by decide)⟩

/-- C5: for a NetFlow v5 payload that passes the size check, record `i`
has `Bytes = dOctets · rate` and `Packets = dPkts · rate` with
`rate = max(1, sampling_interval & 0x3FFF)` from the header, so `Bytes`
is an exact multiple of the sampling rate. -/
theorem c5_sampling_scaling (d exporterIP : List Nat)
    (hv : be16 d 0 = 5) (h24 : 24 ≤ d.length)
    (hsz : 24 + be16 d 2 * 48 ≤ d.length) :
    (Netflow.Parse d exporterIP).err = none ∧
    (Netflow.Parse d exporterIP).flows.length = be16 d 2 ∧
    ∀ i, i < be16 d 2 →
      ((Netflow.Parse d exporterIP).flows.getD i Netflow.dfltRecord).bytes =
        be32 (slice d (24 + 48 * i) 48) 20 * max 1 (be16 d 22 % 16384) ∧
      ((Netflow.Parse d exporterIP).flows.getD i Netflow.dfltRecord).packets =
        be32 (slice d (24 + 48 * i) 48) 16 * max 1 (be16 d 22 % 16384) ∧
      ((Netflow.Parse d exporterIP).flows.getD i Netflow.dfltRecord).samplingRate =
        max 1 (be16 d 22 % 16384) ∧
      max 1 (be16 d 22 % 16384) ∣
        ((Netflow.Parse d exporterIP).flows.getD i Netflow.dfltRecord).bytes := by
  have hs : be16 d 22 % 16384 < 16384 := Nat.mod_lt _ (by norm_num)
  have hrate : (if be16 d 22 % 16384 = 0 then 1 else be16 d 22 % 16384) =
      max 1 (be16 d 22 % 16384) := by
    split
    · omega
    · omega
  have hParse : Netflow.Parse d exporterIP = Netflow.parseV5 d exporterIP := by
    rw [Netflow.Parse, if_neg (by omega : ¬ d.length < 2)]
    simp [hv]
  have hV5 : Netflow.parseV5 d exporterIP =
      ⟨Netflow.parseV5Records d (be32 d 8 * 1000000000 + be32 d 12) exporterIP
          (max 1 (be16 d 22 % 16384)) (be16 d 2) 24,
        none, 1,
        (Netflow.parseV5Records d (be32 d 8 * 1000000000 + be32 d 12) exporterIP
          (max 1 (be16 d 22 % 16384)) (be16 d 2) 24).length, 0⟩ := by
    simp only [Netflow.parseV5]
    rw [if_neg (by omega : ¬ d.length < 24),
      if_neg (by omega : ¬ d.length < 24 + be16 d 2 * 48), hrate]
  rw [hParse, hV5]
  obtain ⟨hlen, hget⟩ := parseV5Records_spec d (be32 d 8 * 1000000000 + be32 d 12) exporterIP
    (max 1 (be16 d 22 % 16384)) (be16 d 2) 24 (by omega)
  refine ⟨rfl, hlen, ?_⟩
  intro i hi
  have hmax : max 1 (be16 d 22 % 16384) ≤ 16383 := by omega
  have hmod : ∀ k : Nat,
      be32 (slice d (24 + 48 * i) 48) k * max 1 (be16 d 22 % 16384) %
        18446744073709551616 =
      be32 (slice d (24 + 48 * i) 48) k * max 1 (be16 d 22 % 16384) := by
    intro k
    apply Nat.mod_eq_of_lt
    have h1 : be32 (slice d (24 + 48 * i) 48) k ≤ 4294967295 := by
      have := be32_lt (slice d (24 + 48 * i) 48) k
      omega
    calc be32 (slice d (24 + 48 * i) 48) k * max 1 (be16 d 22 % 16384)
        ≤ 4294967295 * 16383 := Nat.mul_le_mul h1 hmax
      _ < 18446744073709551616 := by norm_num
  rw [hget i hi]
  refine ⟨?_, ?_, rfl, ?_⟩
  · simpa [Netflow.mkV5FlowRecord] using hmod 20
  · simpa [Netflow.mkV5FlowRecord] using hmod 16
  · show max 1 (be16 d 22 % 16384) ∣
      be32 (slice d (24 + 48 * i) 48) 20 * max 1 (be16 d 22 % 16384) %
        18446744073709551616
    rw [hmod 20]
    exact dvd_mul_left _ _

/-- Witness for C5: the scenario-1 payload at record 0. -/
theorem c5_witness :
    ((Netflow.Parse c1payload [127, 0, 0, 1]).flows.getD 0 Netflow.dfltRecord).bytes =
      be32 (slice c1payload (24 + 48 * 0) 48) 20 * max 1 (be16 c1payload 22 % 16384) ∧
    max 1 (be16 c1payload 22 % 16384) ∣
      ((Netflow.Parse c1payload [127, 0, 0, 1]).flows.getD 0 Netflow.dfltRecord).bytes :=
  ⟨((c5_sampling_scaling c1payload [127, 0, 0, 1] (by decide) (by decide)
      (by decide)).2.2 0 (by decide)).1,
   ((c5_sampling_scaling c1payload [127, 0, 0, 1] (by decide) (by decide)
      (by decide)).2.2 0 (by decide)).2.2.2⟩

/-- C6 counterexample: version 9 (and 10) does not fail with the
`UnsupportedVersion` error that every other non-5 version gets — the v9 /
IPFIX stubs return their own distinct "not fully implemented" errors — so
versions 9 and 10 do not fail the same way as other unsupported
versions. -/
theorem c6_counterexample :
    (Netflow.Parse [0, 9] []).err = some Netflow.ParseErr.v9NotImplemented ∧
    (Netflow.Parse [0, 9] []).err ≠ some (Netflow.ParseErr.unsupportedVersion 9) ∧
    (Netflow.Parse [0, 10] []).err = some Netflow.ParseErr.ipfixNotImplemented := by decide

/-- C6 (amended): any payload of ≥ 2 bytes whose version is not 5 yields
zero records, a non-nil error and a decode-error increment of 1 (never a
silent drop); versions other than 9 and 10 get the `UnsupportedVersion`
error, while 9 and 10 get their distinct not-implemented errors. -/
theorem c6_amended_versions (d exporterIP : List Nat) (h2 : 2 ≤ d.length)
    (hv : be16 d 0 ≠ 5) :
    (Netflow.Parse d exporterIP).flows = [] ∧
    (Netflow.Parse d exporterIP).err.isSome = true ∧
    (Netflow.Parse d exporterIP).parseErrorsDelta = 1 ∧
    (Netflow.Parse d exporterIP).recordsParsedDelta = 0 ∧
    (be16 d 0 ≠ 9 → be16 d 0 ≠ 10 →
      (Netflow.Parse d exporterIP).err =
        some (Netflow.ParseErr.unsupportedVersion (be16 d 0))) := by
  rw [Netflow.Parse, if_neg (by omega : ¬ d.length < 2)]
  by_cases h9 : be16 d 0 = 9
  · simp [hv, h9]
  · by_cases h10 : be16 d 0 = 10
    · simp [hv, h9, h10]
    · simp [hv, h9, h10]

/-- Witness for C6 (amended): version 7. -/
theorem c6_amended_witness :
    (Netflow.Parse [0, 7] []).flows = [] ∧
    (Netflow.Parse [0, 7] []).err = some (Netflow.ParseErr.unsupportedVersion 7) ∧
    (Netflow.Parse [0, 7] []).parseErrorsDelta = 1 :=
  ⟨(c6_amended_versions [0, 7] [] (by decide) (by decide)).1,
   (c6_amended_versions [0, 7] [] (by decide) (by decide)).2.2.2.2 (by decide) (by decide),
   (c6_amended_versions [0, 7] [] (by decide) (by decide)).2.2.1⟩

/-- C7: a v5 payload of ≥ 24 bytes shorter than `24 + count × 48` fails
with the size-mismatch error, emits no records and touches no counter but
the error counter. -/
theorem c7_size_mismatch (d exporterIP : List Nat) (h24 : 24 ≤ d.length)
    (hv : be16 d 0 = 5) (hsz : d.length < 24 + be16 d 2 * 48) :
    Netflow.Parse d exporterIP =
      ⟨[], some (Netflow.ParseErr.sizeMismatch d.length (24 + be16 d 2 * 48)),
        0, 0, 1⟩ := by
  have hParse : Netflow.Parse d exporterIP = Netflow.parseV5 d exporterIP := by
    rw [Netflow.Parse, if_neg (by omega : ¬ d.length < 2)]
    simp [hv]
  rw [hParse]
  simp only [Netflow.parseV5]
  rw [if_neg (by omega : ¬ d.length < 24), if_pos hsz]

/-- Witness for C7: count = 30 with only 24 + 29 × 48 = 1416 bytes. -/
theorem c7_witness :
    Netflow.Parse c7payload [] =
      ⟨[], some (Netflow.ParseErr.sizeMismatch 1416 1464), 0, 0, 1⟩ :=
  c7_size_mismatch c7payload [] (by decide) (by decide) (by decide)

/-- C9: a failing flush of a non-empty batch increments the failed-batches
counter by exactly 1, empties the batch, performs exactly one insert call
(no retry), leaves the buffer untouched (no requeue) and changes no other
counter; a flush of an empty batch performs no insert and changes
nothing. -/
theorem c9_flush_contract (batch buffer : List FlowRecordDB) (stats : AgentStats)
    (ok : Bool) (hne : batch.length ≠ 0) :
    flushBatch batch buffer stats false =
      ([], buffer, { stats with dbInsertsFailed := stats.dbInsertsFailed + 1 }, 1) ∧
    flushBatch [] buffer stats ok = ([], buffer, stats, 0) ∧
    insertFlowRecordsCopyCalls [] = 0 := by
  refine ⟨?_, ?_, rfl⟩
  · rw [flushBatch, if_neg hne]
    simp
  · rw [flushBatch]
    simp

/-- Witness for C9: a one-record batch whose insert fails, and the empty
batch. -/
theorem c9_flush_witness :
    flushBatch [dbRecDemo] [] stats0 false = ([], [], ⟨0, 0, 0, 1, 0⟩, 1) ∧
    flushBatch [] [] stats0 true = ([], [], stats0, 0) :=
  ⟨(c9_flush_contract [dbRecDemo] [] stats0 true (by decide)).1,
   (c9_flush_contract [dbRecDemo] [] stats0 true (by decide)).2.1⟩

/-- C10: every 32-bit unsigned field of a decoded record is narrowed to
the database row by two's-complement wraparound (`int32(x)`), so any value
in `[2^31, 2^32)` — e.g. a large sFlow sampling rate or interface index —
is stored negative. -/
theorem c10_int32_wraparound (f : Sflow.FlowRecord) (g : Netflow.FlowRecord) (v : Nat)
    (h1 : 2147483648 ≤ v) (h2 : v < 4294967296) :
    int32ofUint v = (v : Int) - 4294967296 ∧
    int32ofUint v < 0 ∧
    (sflowToDB f).samplingRate = int32ofUint f.samplingRate ∧
    (sflowToDB f).inputInterface = int32ofUint f.inputInterface ∧
    (sflowToDB f).outputInterface = int32ofUint f.outputInterface ∧
    (netflowToDB g).sourcePort = int32ofUint g.sourcePort ∧
    (netflowToDB g).destPort = int32ofUint g.destPort ∧
    (netflowToDB g).inputInterface = int32ofUint g.inputInterface ∧
    (netflowToDB g).outputInterface = int32ofUint g.outputInterface ∧
    (netflowToDB g).sourceAS = int32ofUint g.sourceAS ∧
    (netflowToDB g).destAS = int32ofUint g.destAS ∧
    (netflowToDB g).flowDuration = int32ofUint g.flowDuration ∧
    (netflowToDB g).samplingRate = int32ofUint g.samplingRate := by
  have hm : v % 4294967296 = v := Nat.mod_eq_of_lt h2
  refine ⟨?_, ?_, rfl, rfl, rfl, rfl, rfl, rfl, rfl, rfl, rfl, rfl, rfl⟩
  · rw [int32ofUint, hm, if_neg (by omega)]
  · rw [int32ofUint, hm, if_neg (by omega)]
    omega

/-- Witness for C10: an sFlow record with sampling rate 2^31 is stored as
-2^31. -/
theorem c10_witness :
    int32ofUint 2147483648 = -2147483648 ∧
    int32ofUint 2147483648 < 0 ∧
    (sflowToDB ⟨0, [], [], [], 0, 0, 0, 0, 0, 0, 0, 2147483648, 0, 0, 0⟩).samplingRate =
      int32ofUint 2147483648 :=
  ⟨(c10_int32_wraparound ⟨0, [], [], [], 0, 0, 0, 0, 0, 0, 0, 2147483648, 0, 0, 0⟩
      Netflow.dfltRecord 2147483648 (by decide) (by decide)).1,
   (c10_int32_wraparound ⟨0, [], [], [], 0, 0, 0, 0, 0, 0, 0, 2147483648, 0, 0, 0⟩
      Netflow.dfltRecord 2147483648 (by decide) (by decide)).2.1,
   (c10_int32_wraparound ⟨0, [], [], [], 0, 0, 0, 0, 0, 0, 0, 2147483648, 0, 0, 0⟩
      Netflow.dfltRecord 2147483648 (by decide) (by decide)).2.2.1⟩

end NetWeaver
